import Mathlib

/-!
# OTP verification subsystem of the rgram backend

Shallow embedding of the canonical OTP model (`src/unnamed/part_004`,
the Mongoose schema with bcrypt-hashed codes, 10-minute TTL, 5-attempt cap),
which the specification designates as the canonical variant.

The Mongo collection is modelled as a list of records; `Date.now()` is an
explicit `now : Nat` in milliseconds; the bcrypt hash is an abstract
parameter `hash : String → String`, with `bcrypt.compare(code, stored)`
modelled as `stored == hash code`.  Each stored document carries a Mongo
`_id`, modelled as `id : Nat`; `document.save()` after mutation writes the
document back over every stored record with the same id.
-/

namespace RGramOTP

/-- One persisted OTP document (fields of `otpSchema` in
`src/unnamed/part_004`): `email`, `code` (stored bcrypt-hashed by the
pre-save hook), `purpose`, `expiresAt`, `attempts`, `isUsed`, `createdAt`,
plus the Mongo document id. -/
structure OTPRecord where
  id : Nat
  email : String
  code : String
  purpose : String
  expiresAt : Nat
  attempts : Nat
  isUsed : Bool
  createdAt : Nat
deriving Repr, DecidableEq

/-- The `lowercase: true, trim: true` setters on the schema's `email` path:
Mongoose applies them to document values on assignment and to query filter
values on `findOne`/`deleteMany`.  Written over the character list so the
kernel can evaluate it (`String.toLower`/`String.trim` with the same
behavior). -/
def normEmail (e : String) : String :=
  String.mk ((((e.data.map Char.toLower).dropWhile Char.isWhitespace).reverse.dropWhile
    Char.isWhitespace).reverse)

/-- The `{ email, purpose }` filter used by `deleteMany` in `createOTP`
and by the `findOne` calls (with the email setter applied). -/
def pairMatch (email purpose : String) (r : OTPRecord) : Bool :=
  r.email == normEmail email && r.purpose == purpose

/-- The `findOne({ email, purpose, isUsed: false, expiresAt: { $gt: new Date() } })`
filter at the top of `verifyOTP`. -/
def isActiveFor (now : Nat) (email purpose : String) (r : OTPRecord) : Bool :=
  pairMatch email purpose r && !r.isUsed && decide (now < r.expiresAt)

/-- `findOne` over the collection with the active-record filter. -/
def findOneActive (now : Nat) (email purpose : String) (db : List OTPRecord) :
    Option OTPRecord :=
  db.find? (isActiveFor now email purpose)

/-- `document.save()` after in-memory mutation: the stored record with the
document's id is overwritten with the mutated document. -/
def saveRecord (db : List OTPRecord) (r : OTPRecord) : List OTPRecord :=
  db.map (fun s => if s.id == r.id then r else s)

/-- The `{ valid, message }` object returned by `verifyOTP`. -/
structure VerifyResult where
  valid : Bool
  message : String
deriving Repr, DecidableEq

/-- `otpSchema.statics.verifyOTP(email, code, purpose)` from
`src/unnamed/part_004` lines 139-176: look up the active record; absent →
`Invalid or expired OTP`; `attempts >= 5` → too many attempts; otherwise
increment `attempts`, save, and compare the submitted code against the
stored hash (`bcrypt.compare`), marking the record used on a match.
Returns the result object together with the updated collection. -/
def verifyOTP (hash : String → String) (now : Nat) (email code purpose : String)
    (db : List OTPRecord) : VerifyResult × List OTPRecord :=
  match findOneActive now email purpose db with
  | none => (⟨false, "Invalid or expired OTP"⟩, db)
  | some otp =>
    if 5 ≤ otp.attempts then
      (⟨false, "Too many attempts. Please request a new OTP."⟩, db)
    else
      let otp1 : OTPRecord := { otp with attempts := otp.attempts + 1 }
      let db1 := saveRecord db otp1
      if otp1.code == hash code then
        (⟨true, "OTP verified successfully"⟩, saveRecord db1 { otp1 with isUsed := true })
      else
        (⟨false, "Invalid OTP code"⟩, db1)

/-- Modelled from the spec: `generateOTP` calls `speakeasy.totp` (an external
library, not in the repository) with `digits: 6`, producing a zero-padded
6-digit numeric one-time code; the randomness source is abstracted as a
`seed`. -/
def generateOTP (seed : Nat) : String :=
  let n := seed % 1000000
  String.mk [Nat.digitChar (n / 100000 % 10), Nat.digitChar (n / 10000 % 10),
    Nat.digitChar (n / 1000 % 10), Nat.digitChar (n / 100 % 10),
    Nat.digitChar (n / 10 % 10), Nat.digitChar (n % 10)]

/-- `otpSchema.statics.createOTP(email, purpose)` from `src/unnamed/part_004`
lines 103-130: `deleteMany({ email, purpose })`, generate a fresh code,
persist a new record whose `code` the pre-save hook replaces by its bcrypt
hash, with `expiresAt = now + OTP_EXPIRE_MINUTES·60·1000` (`ttlMin`,
default 10), schema defaults `attempts = 0`, `isUsed = false`,
`createdAt = now`; return the plaintext code, `expiresAt` and `purpose`.
The fresh code and new document id are passed in explicitly. -/
def createOTP (hash : String → String) (now ttlMin : Nat) (code : String)
    (newId : Nat) (email purpose : String) (db : List OTPRecord) :
    (String × Nat × String) × List OTPRecord :=
  let kept := db.filter (fun r => !(pairMatch email purpose r))
  let expiresAt := now + ttlMin * 60 * 1000
  ((code, expiresAt, purpose),
    { id := newId, email := normEmail email, code := hash code, purpose := purpose,
      expiresAt := expiresAt, attempts := 0, isUsed := false, createdAt := now } :: kept)

/-- `createOTP` with the default TTL (`OTP_EXPIRE_MINUTES` unset → 10
minutes) and the code produced by `generateOTP`. -/
def createOTPDefault (hash : String → String) (now : Nat) (seed newId : Nat)
    (email purpose : String) (db : List OTPRecord) :
    (String × Nat × String) × List OTPRecord :=
  createOTP hash now 10 (generateOTP seed) newId email purpose db

/-- The `findOne({ email, purpose, createdAt: { $gte: new Date(Date.now() - 60*1000) } })`
filter in `resendOTP`: a record for the pair created within the last 60
seconds, regardless of its used or expired state.  `createdAt ≥ now - 60000`
is written additively to avoid truncated subtraction. -/
def isRecent (now : Nat) (email purpose : String) (r : OTPRecord) : Bool :=
  pairMatch email purpose r && decide (now ≤ r.createdAt + 60000)

/-- `otpSchema.statics.resendOTP(email, purpose)` from `src/unnamed/part_004`
lines 184-202: throw a rate-limit error when a record for the pair was
created within the last 60 seconds; otherwise delegate to `createOTP`.  The
function's own catch block re-wraps the thrown message with the
`Failed to resend OTP: ` prefix, which is what the caller observes. -/
def resendOTP (hash : String → String) (now ttlMin : Nat) (code : String)
    (newId : Nat) (email purpose : String) (db : List OTPRecord) :
    Except String ((String × Nat × String) × List OTPRecord) :=
  match db.find? (isRecent now email purpose) with
  | some _ =>
    .error "Failed to resend OTP: Please wait at least 1 minute before requesting a new OTP"
  | none => .ok (createOTP hash now ttlMin code newId email purpose db)

/-! ### Basic facts about record updates and lookups -/

/-- Overwriting every stored record with a given id. `saveRecord` is
`overwrite` at the saved document's id. -/
def overwrite (i : Nat) (r : OTPRecord) (db : List OTPRecord) : List OTPRecord :=
  db.map (fun s => if s.id == i then r else s)

theorem saveRecord_eq_overwrite (db : List OTPRecord) (r : OTPRecord) :
    saveRecord db r = overwrite r.id r db := rfl

theorem overwrite_overwrite {i : Nat} {r1 : OTPRecord} (r2 : OTPRecord)
    (h : r1.id = i) (db : List OTPRecord) :
    overwrite i r2 (overwrite i r1 db) = overwrite i r2 db := by
  unfold overwrite
  rw [List.map_map]
  have hfun : ((fun s => if s.id == i then r2 else s) ∘ fun s => if s.id == i then r1 else s)
      = fun s : OTPRecord => if s.id == i then r2 else s := by
    funext s
    by_cases hs : s.id = i
    · simp [hs, h]
    · simp [hs]
  rw [hfun]

theorem mem_overwrite {x : OTPRecord} {i : Nat} {r : OTPRecord} {db : List OTPRecord}
    (h : x ∈ overwrite i r db) : x = r ∨ x ∈ db := by
  rcases List.mem_map.mp h with ⟨s, hs, hx⟩
  by_cases hid : s.id = i
  · left; simp [hid] at hx; exact hx.symm
  · right; simp [hid] at hx; exact hx ▸ hs

theorem saveRecord_cons_self (u u' : OTPRecord) (rest : List OTPRecord)
    (h : u'.id = u.id) :
    saveRecord (u :: rest) u' = u' :: overwrite u.id u' rest := by
  simp [saveRecord, overwrite, h]

/-- If nothing in the collection passes the active-record filter, `verifyOTP`
reports "Invalid or expired OTP" and leaves the collection untouched. -/
theorem verifyOTP_of_no_active (hash : String → String) (now : Nat)
    (email c purpose : String) (db : List OTPRecord)
    (h : ∀ r ∈ db, isActiveFor now email purpose r = false) :
    verifyOTP hash now email c purpose db = (⟨false, "Invalid or expired OTP"⟩, db) := by
  have hnone : findOneActive now email purpose db = none := by
    refine List.find?_eq_none.mpr ?_
    intro x hx
    simp [h x hx]
  simp [verifyOTP, hnone]

/-- A record whose stored fields match the queried pair and which is unused,
unexpired and sitting at the head of the collection is the one `findOneActive`
returns. -/
theorem isActiveFor_true {now : Nat} {email purpose : String} {u : OTPRecord}
    (hem : u.email = normEmail email) (hpu : u.purpose = purpose)
    (hus : u.isUsed = false) (hexp : now < u.expiresAt) :
    isActiveFor now email purpose u = true := by
  simp [isActiveFor, pairMatch, hem, hpu, hus, hexp]

/-- `verifyOTP` on a collection headed by an eligible record whose stored hash
does not match the submitted code: invalid-code result, attempts bumped. -/
theorem verifyOTP_cons_wrong (hash : String → String) (now : Nat)
    (email c purpose : String) (u : OTPRecord) (rest : List OTPRecord)
    (hem : u.email = normEmail email) (hpu : u.purpose = purpose)
    (hus : u.isUsed = false) (hexp : now < u.expiresAt)
    (hatt : u.attempts < 5) (hc : (u.code == hash c) = false) :
    verifyOTP hash now email c purpose (u :: rest) =
      (⟨false, "Invalid OTP code"⟩,
        { u with attempts := u.attempts + 1 } ::
          overwrite u.id { u with attempts := u.attempts + 1 } rest) := by
  have hfind : findOneActive now email purpose (u :: rest) = some u :=
    List.find?_cons_of_pos rest (isActiveFor_true hem hpu hus hexp)
  have hle : ¬ 5 ≤ u.attempts := Nat.not_le.mpr hatt
  have h1 : saveRecord (u :: rest) { u with attempts := u.attempts + 1 } =
      { u with attempts := u.attempts + 1 } ::
        overwrite u.id { u with attempts := u.attempts + 1 } rest :=
    saveRecord_cons_self u { u with attempts := u.attempts + 1 } rest rfl
  unfold verifyOTP
  rw [hfind]
  simp only [hle, if_false, ite_false]
  simp [hc, h1]

/-- `verifyOTP` on a collection headed by an eligible record whose stored hash
matches the submitted code: success, attempts bumped and record marked used. -/
theorem verifyOTP_cons_correct (hash : String → String) (now : Nat)
    (email c purpose : String) (u : OTPRecord) (rest : List OTPRecord)
    (hem : u.email = normEmail email) (hpu : u.purpose = purpose)
    (hus : u.isUsed = false) (hexp : now < u.expiresAt)
    (hatt : u.attempts < 5) (hc : (u.code == hash c) = true) :
    verifyOTP hash now email c purpose (u :: rest) =
      (⟨true, "OTP verified successfully"⟩,
        { u with attempts := u.attempts + 1, isUsed := true } ::
          overwrite u.id { u with attempts := u.attempts + 1, isUsed := true } rest) := by
  have hfind : findOneActive now email purpose (u :: rest) = some u :=
    List.find?_cons_of_pos rest (isActiveFor_true hem hpu hus hexp)
  have hle : ¬ 5 ≤ u.attempts := Nat.not_le.mpr hatt
  have hsave1 :
      saveRecord (u :: rest) { u with attempts := u.attempts + 1 } =
        { u with attempts := u.attempts + 1 } ::
          overwrite u.id { u with attempts := u.attempts + 1 } rest :=
    saveRecord_cons_self u { u with attempts := u.attempts + 1 } rest rfl
  have hsave2 :
      saveRecord
          ({ u with attempts := u.attempts + 1 } ::
            overwrite u.id { u with attempts := u.attempts + 1 } rest)
          { u with attempts := u.attempts + 1, isUsed := true } =
        { u with attempts := u.attempts + 1, isUsed := true } ::
          overwrite u.id { u with attempts := u.attempts + 1, isUsed := true }
            (overwrite u.id { u with attempts := u.attempts + 1 } rest) :=
    saveRecord_cons_self { u with attempts := u.attempts + 1 }
      { u with attempts := u.attempts + 1, isUsed := true }
      (overwrite u.id { u with attempts := u.attempts + 1 } rest) rfl
  have hsave3 :
      overwrite u.id { u with attempts := u.attempts + 1, isUsed := true }
          (overwrite u.id { u with attempts := u.attempts + 1 } rest) =
        overwrite u.id { u with attempts := u.attempts + 1, isUsed := true } rest :=
    @overwrite_overwrite u.id { u with attempts := u.attempts + 1 }
      { u with attempts := u.attempts + 1, isUsed := true } rfl rest
  unfold verifyOTP
  rw [hfind]
  simp only [hle, if_false, ite_false]
  simp [hc, hsave1, hsave2, hsave3]

/-- `verifyOTP` on a collection headed by an unused, unexpired record for the
pair whose attempt counter is exhausted: too-many-attempts, collection
untouched, submitted code never consulted. -/
theorem verifyOTP_cons_capped (hash : String → String) (now : Nat)
    (email c purpose : String) (u : OTPRecord) (rest : List OTPRecord)
    (hem : u.email = normEmail email) (hpu : u.purpose = purpose)
    (hus : u.isUsed = false) (hexp : now < u.expiresAt)
    (hatt : 5 ≤ u.attempts) :
    verifyOTP hash now email c purpose (u :: rest) =
      (⟨false, "Too many attempts. Please request a new OTP."⟩, u :: rest) := by
  have hfind : findOneActive now email purpose (u :: rest) = some u :=
    List.find?_cons_of_pos rest (isActiveFor_true hem hpu hus hexp)
  simp [verifyOTP, hfind, hatt]

theorem overwrite_of_ne {i : Nat} {r : OTPRecord} {db : List OTPRecord}
    (h : ∀ s ∈ db, s.id ≠ i) : overwrite i r db = db := by
  induction db with
  | nil => rfl
  | cons a t ih =>
    have ha : a.id ≠ i := h a (List.mem_cons_self a t)
    simp only [overwrite, List.map_cons] at ih ⊢
    rw [ih (fun s hs => h s (List.mem_cons_of_mem a hs))]
    simp [ha]

/-- The record literal `createOTP` persists (after the pre-save bcrypt hook
has hashed the code and the schema defaults were applied). -/
def freshOTP (hash : String → String) (now ttlMin : Nat) (code : String)
    (newId : Nat) (email purpose : String) : OTPRecord :=
  { id := newId, email := normEmail email, code := hash code, purpose := purpose,
    expiresAt := now + ttlMin * 60 * 1000, attempts := 0, isUsed := false,
    createdAt := now }

theorem createOTP_eq (hash : String → String) (now ttlMin : Nat) (code : String)
    (newId : Nat) (email purpose : String) (db : List OTPRecord) :
    createOTP hash now ttlMin code newId email purpose db =
      ((code, now + ttlMin * 60 * 1000, purpose),
        freshOTP hash now ttlMin code newId email purpose ::
          db.filter (fun r => !(pairMatch email purpose r))) := rfl

theorem pairMatch_false_of_mem_kept {email purpose : String} {db : List OTPRecord}
    {r : OTPRecord} (h : r ∈ db.filter (fun r => !(pairMatch email purpose r))) :
    pairMatch email purpose r = false := by
  simpa using (List.mem_filter.mp h).2

theorem of_isActiveFor {now : Nat} {email purpose : String} {r : OTPRecord}
    (h : isActiveFor now email purpose r = true) :
    r.email = normEmail email ∧ r.purpose = purpose ∧ r.isUsed = false ∧
      now < r.expiresAt := by
  simp only [isActiveFor, pairMatch, Bool.and_eq_true, beq_iff_eq,
    Bool.not_eq_true', decide_eq_true_eq] at h
  exact ⟨h.1.1.1, h.1.1.2, h.1.2, h.2⟩

/-- `verifyOTP` when a record is found, its attempts are below the cap, and
the stored hash does not match: invalid-code, attempts bumped and saved. -/
theorem verifyOTP_found_wrong (hash : String → String) (now : Nat)
    (email c purpose : String) (db : List OTPRecord) (otp : OTPRecord)
    (hfind : findOneActive now email purpose db = some otp)
    (hatt : otp.attempts < 5) (hc : (otp.code == hash c) = false) :
    verifyOTP hash now email c purpose db =
      (⟨false, "Invalid OTP code"⟩,
        saveRecord db { otp with attempts := otp.attempts + 1 }) := by
  unfold verifyOTP
  rw [hfind]
  simp [Nat.not_le.mpr hatt, hc]

/-- `verifyOTP` when a record is found, its attempts are below the cap, and
the stored hash matches: success, attempts bumped, record marked used. -/
theorem verifyOTP_found_right (hash : String → String) (now : Nat)
    (email c purpose : String) (db : List OTPRecord) (otp : OTPRecord)
    (hfind : findOneActive now email purpose db = some otp)
    (hatt : otp.attempts < 5) (hc : (otp.code == hash c) = true) :
    verifyOTP hash now email c purpose db =
      (⟨true, "OTP verified successfully"⟩,
        saveRecord (saveRecord db { otp with attempts := otp.attempts + 1 })
          { otp with attempts := otp.attempts + 1, isUsed := true }) := by
  unfold verifyOTP
  rw [hfind]
  simp [Nat.not_le.mpr hatt, hc]

/-- `verifyOTP` when a record is found with its attempt counter exhausted:
too-many-attempts failure, store untouched, code never compared. -/
theorem verifyOTP_found_capped (hash : String → String) (now : Nat)
    (email c purpose : String) (db : List OTPRecord) (otp : OTPRecord)
    (hfind : findOneActive now email purpose db = some otp)
    (hatt : 5 ≤ otp.attempts) :
    verifyOTP hash now email c purpose db =
      (⟨false, "Too many attempts. Please request a new OTP."⟩, db) := by
  unfold verifyOTP
  rw [hfind]
  simp [hatt]

/-- Wrong-code step when no other stored record shares the head's id: the
only change is the head's attempt counter. -/
theorem verifyOTP_cons_wrong_fresh (hash : String → String) (now : Nat)
    (email c purpose : String) (u : OTPRecord) (rest : List OTPRecord)
    (hid : ∀ s ∈ rest, s.id ≠ u.id)
    (hem : u.email = normEmail email) (hpu : u.purpose = purpose)
    (hus : u.isUsed = false) (hexp : now < u.expiresAt)
    (hatt : u.attempts < 5) (hc : (u.code == hash c) = false) :
    verifyOTP hash now email c purpose (u :: rest) =
      (⟨false, "Invalid OTP code"⟩, { u with attempts := u.attempts + 1 } :: rest) := by
  rw [verifyOTP_cons_wrong hash now email c purpose u rest hem hpu hus hexp hatt hc,
    overwrite_of_ne hid]

/-- Iterated verification: each submitted code is checked in turn against
the evolving store. -/
def verifyFold (hash : String → String) (now : Nat) (email purpose : String)
    (cs : List String) (db : List OTPRecord) : List OTPRecord :=
  cs.foldl (fun d c => (verifyOTP hash now email c purpose d).2) db

/-- Submitting a sequence of wrong codes against a store headed by the
eligible record only steps that record's attempt counter, once per code. -/
theorem verifyFold_wrong (hash : String → String) (now : Nat)
    (email purpose : String) (rest : List OTPRecord) :
    ∀ (cs : List String) (u : OTPRecord),
      (∀ s ∈ rest, s.id ≠ u.id) →
      u.email = normEmail email → u.purpose = purpose → u.isUsed = false →
      now < u.expiresAt → (∀ c ∈ cs, (u.code == hash c) = false) →
      u.attempts + cs.length ≤ 5 →
      verifyFold hash now email purpose cs (u :: rest) =
        { u with attempts := u.attempts + cs.length } :: rest := by
  intro cs
  induction cs with
  | nil =>
    intro u _ _ _ _ _ _ _
    rfl
  | cons c cs ih =>
    intro u hid hem hpu hus hexp hcs hlen
    have hlen' : u.attempts + (cs.length + 1) ≤ 5 := by
      simpa [List.length_cons] using hlen
    have hstep := verifyOTP_cons_wrong_fresh hash now email c purpose u rest hid
      hem hpu hus hexp (by omega) (hcs c (List.mem_cons_self c cs))
    have htail := ih { u with attempts := u.attempts + 1 }
      (fun s hs => hid s hs) hem hpu hus hexp
      (fun c' hc' => hcs c' (List.mem_cons_of_mem c hc'))
      (by simpa using by omega : u.attempts + 1 + cs.length ≤ 5)
    simp only [verifyFold, List.foldl_cons] at htail ⊢
    rw [hstep]
    rw [htail]
    have harith : u.attempts + 1 + cs.length = u.attempts + (cs.length + 1) := by omega
    simp only [List.length_cons]
    rw [harith]

/-- `verifyOTP` never pushes an attempt counter past the cap. -/
theorem verifyOTP_attempts_le (hash : String → String) (now : Nat)
    (email c purpose : String) (db : List OTPRecord)
    (hall : ∀ r ∈ db, r.attempts ≤ 5) :
    ∀ r ∈ (verifyOTP hash now email c purpose db).2, r.attempts ≤ 5 := by
  intro r hr
  cases hfind : findOneActive now email purpose db with
  | none =>
    rw [verifyOTP_of_no_active hash now email c purpose db ?_] at hr
    · exact hall r hr
    · intro x hx
      have := List.find?_eq_none.mp hfind x hx
      simpa using this
  | some otp =>
    by_cases hcap : 5 ≤ otp.attempts
    · rw [verifyOTP_found_capped hash now email c purpose db otp hfind hcap] at hr
      exact hall r hr
    · have hatt : otp.attempts < 5 := Nat.lt_of_not_le hcap
      cases hcmp : otp.code == hash c with
      | false =>
        rw [verifyOTP_found_wrong hash now email c purpose db otp hfind hatt hcmp] at hr
        rw [saveRecord_eq_overwrite] at hr
        rcases mem_overwrite hr with rfl | hr'
        · show otp.attempts + 1 ≤ 5
          omega
        · exact hall r hr'
      | true =>
        rw [verifyOTP_found_right hash now email c purpose db otp hfind hatt hcmp] at hr
        rw [saveRecord_eq_overwrite, saveRecord_eq_overwrite] at hr
        rcases mem_overwrite hr with rfl | hr'
        · show otp.attempts + 1 ≤ 5
          omega
        · rcases mem_overwrite hr' with rfl | hr''
          · show otp.attempts + 1 ≤ 5
            omega
          · exact hall r hr''

/-- When stored ids are distinct, saving a mutation of the found record that
is still active at a later instant makes it the record a later lookup finds:
every record the original lookup skipped stays ineligible (same pair and
used flag; an expiry in the past stays in the past). -/
theorem find?_overwrite_later {now now' : Nat} {email purpose : String}
    {otp u1 : OTPRecord}
    (hid : u1.id = otp.id)
    (hact : isActiveFor now' email purpose u1 = true)
    (hlater : now ≤ now') :
    ∀ db : List OTPRecord, (db.map OTPRecord.id).Nodup →
      db.find? (isActiveFor now email purpose) = some otp →
      (overwrite otp.id u1 db).find? (isActiveFor now' email purpose) = some u1 := by
  intro db
  induction db with
  | nil => intro _ hfind; exact absurd hfind (by simp)
  | cons a t ih =>
    intro hnodup hfind
    rw [List.map_cons, List.nodup_cons] at hnodup
    cases hpa : isActiveFor now email purpose a with
    | true =>
      have ha : a = otp := by
        rw [List.find?_cons_of_pos t hpa] at hfind
        exact Option.some.inj hfind
      subst ha
      simp only [overwrite, List.map_cons]
      rw [if_pos (by simp)]
      exact List.find?_cons_of_pos _ hact
    | false =>
      have hfind' : t.find? (isActiveFor now email purpose) = some otp := by
        rw [List.find?_cons_of_neg t (by simp [hpa])] at hfind
        exact hfind
      have hane : a.id ≠ otp.id := by
        intro he
        exact hnodup.1 (he ▸ List.mem_map_of_mem OTPRecord.id
          (List.mem_of_find?_eq_some hfind'))
      have hfail : isActiveFor now' email purpose a = false := by
        cases hpm : pairMatch email purpose a with
        | false => simp [isActiveFor, hpm]
        | true =>
          cases hus : a.isUsed with
          | true => simp [isActiveFor, hus]
          | false =>
            have hdec : decide (now < a.expiresAt) = false := by
              simpa [isActiveFor, hpm, hus] using hpa
            have hexp : a.expiresAt ≤ now := Nat.not_lt.mp (of_decide_eq_false hdec)
            simp [isActiveFor, hpm, hus, Nat.not_lt.mpr (le_trans hexp hlater)]
      simp only [overwrite, List.map_cons]
      rw [if_neg (by simp [hane])]
      rw [List.find?_cons_of_neg _ (by simp [hfail])]
      exact ih hnodup.2 hfind'

/-! ### Claim theorems -/

/-- C3: after `createOTP(address, purpose)` returns, the store holds exactly
one record for that pair — the fresh one — because `deleteMany` removed all
prior records for the pair before the insert; hence at most one active
(unused, unexpired) record exists for the pair, and records for every other
pair are untouched. -/
theorem createOTP_single_record_per_pair (hash : String → String)
    (now ttlMin : Nat) (code : String) (newId : Nat) (email purpose : String)
    (db : List OTPRecord) :
    ((createOTP hash now ttlMin code newId email purpose db).2.filter
        (pairMatch email purpose) =
      [freshOTP hash now ttlMin code newId email purpose]) ∧
    ((createOTP hash now ttlMin code newId email purpose db).2.countP
        (isActiveFor now email purpose) ≤ 1) ∧
    ((createOTP hash now ttlMin code newId email purpose db).2.filter
        (fun r => !(pairMatch email purpose r)) =
      db.filter (fun r => !(pairMatch email purpose r))) := by
  have hpairfresh : pairMatch email purpose
      (freshOTP hash now ttlMin code newId email purpose) = true := by
    simp [pairMatch, freshOTP]
  have hkept : ∀ r ∈ db.filter (fun r => !(pairMatch email purpose r)),
      pairMatch email purpose r = false := fun r hr => pairMatch_false_of_mem_kept hr
  rw [createOTP_eq]
  refine ⟨?_, ?_, ?_⟩
  · rw [List.filter_cons_of_pos hpairfresh]
    rw [List.filter_eq_nil_iff.mpr (fun r hr => by simp [hkept r hr])]
  · rw [List.countP_cons]
    have hzero : (db.filter (fun r => !(pairMatch email purpose r))).countP
        (isActiveFor now email purpose) = 0 := by
      rw [List.countP_eq_zero]
      intro r hr
      simp [isActiveFor, hkept r hr]
    rw [hzero]
    split <;> omega
  · rw [List.filter_cons_of_neg (by simp [hpairfresh])]
    rw [List.filter_eq_self.mpr (fun r hr => (List.mem_filter.mp hr).2)]

/-- C6: when every stored record for the pair has expired (`expiresAt ≤ now`),
`verifyOTP` returns the not-found-or-expired failure for any submitted code —
correct or not — and leaves the store unchanged, so no attempts counter is
incremented. -/
theorem verifyOTP_expired_record (hash : String → String) (now : Nat)
    (email c purpose : String) (db : List OTPRecord)
    (h : ∀ r ∈ db, pairMatch email purpose r = true → r.expiresAt ≤ now) :
    verifyOTP hash now email c purpose db =
      (⟨false, "Invalid or expired OTP"⟩, db) := by
  apply verifyOTP_of_no_active
  intro r hr
  cases hpm : pairMatch email purpose r with
  | false => simp [isActiveFor, hpm]
  | true =>
    have hle := h r hr hpm
    simp [isActiveFor, hpm, Nat.not_lt.mpr hle]

/-- Witness for C6: a concrete expired record rejects its own correct code
and the store is unchanged. -/
theorem verifyOTP_expired_record_witness :
    verifyOTP id 1000 "a@x.com" "123456" "signup"
        [{ id := 1, email := "a@x.com", code := "123456", purpose := "signup",
           expiresAt := 900, attempts := 0, isUsed := false, createdAt := 0 }] =
      (⟨false, "Invalid or expired OTP"⟩,
        [{ id := 1, email := "a@x.com", code := "123456", purpose := "signup",
           expiresAt := 900, attempts := 0, isUsed := false, createdAt := 0 }]) :=
  verifyOTP_expired_record id 1000 "a@x.com" "123456" "signup" _ (by decide)

/-- C8: `createOTP` persists the new record with `attempts = 0`,
`isUsed = false` and `expiresAt = now + ttl·60·1000` (default TTL 10 minutes),
and returns the plaintext code — a 6-character all-digit string — together
with that `expiresAt`. -/
theorem createOTP_fresh_record_shape (hash : String → String)
    (now ttlMin seed newId : Nat) (email purpose : String) (db : List OTPRecord) :
    ((freshOTP hash now ttlMin (generateOTP seed) newId email purpose).attempts = 0 ∧
      (freshOTP hash now ttlMin (generateOTP seed) newId email purpose).isUsed = false ∧
      (freshOTP hash now ttlMin (generateOTP seed) newId email purpose).expiresAt =
        now + ttlMin * 60 * 1000) ∧
    ((createOTP hash now ttlMin (generateOTP seed) newId email purpose db).2.filter
        (pairMatch email purpose) =
      [freshOTP hash now ttlMin (generateOTP seed) newId email purpose]) ∧
    (createOTPDefault hash now seed newId email purpose db).1 =
      (generateOTP seed, now + 10 * 60 * 1000, purpose) ∧
    (generateOTP seed).length = 6 ∧
    (generateOTP seed).toList.all Char.isDigit = true := by
  have hdigit : ∀ d, d < 10 → (Nat.digitChar d).isDigit = true := by decide
  have hpairfresh : pairMatch email purpose
      (freshOTP hash now ttlMin (generateOTP seed) newId email purpose) = true := by
    simp [pairMatch, freshOTP]
  refine ⟨⟨rfl, rfl, rfl⟩, ?_, rfl, rfl, ?_⟩
  · rw [createOTP_eq, List.filter_cons_of_pos hpairfresh]
    rw [List.filter_eq_nil_iff.mpr
      (fun r hr => by simp [pairMatch_false_of_mem_kept hr])]
  · show List.all _ Char.isDigit = true
    simp only [generateOTP, String.toList, List.all_cons, List.all_nil,
      Bool.and_eq_true, and_true]
    have h10 : (0 : Nat) < 10 := by norm_num
    exact ⟨hdigit _ (Nat.mod_lt _ h10), hdigit _ (Nat.mod_lt _ h10),
      hdigit _ (Nat.mod_lt _ h10), hdigit _ (Nat.mod_lt _ h10),
      hdigit _ (Nat.mod_lt _ h10), hdigit _ (Nat.mod_lt _ h10)⟩

/-- C1: verifying with the correct code while the fresh record is eligible
succeeds and marks every stored record for the pair used; afterwards any
`verifyOTP` call for the pair — at any time, with the same or any other
code — finds no active record and returns the not-found-or-expired failure
with the store unchanged, never `valid = true` again. -/
theorem verifyOTP_single_use (hash : String → String) (db : List OTPRecord)
    (now0 ttlMin : Nat) (code : String) (newId : Nat) (email purpose : String)
    (now1 now2 : Nat) (c2 : String)
    (h1 : now1 < now0 + ttlMin * 60 * 1000) :
    (verifyOTP hash now1 email code purpose
        (createOTP hash now0 ttlMin code newId email purpose db).2).1 =
      ⟨true, "OTP verified successfully"⟩ ∧
    (∀ r ∈ (verifyOTP hash now1 email code purpose
        (createOTP hash now0 ttlMin code newId email purpose db).2).2,
      pairMatch email purpose r = true → r.isUsed = true) ∧
    verifyOTP hash now2 email c2 purpose
        (verifyOTP hash now1 email code purpose
          (createOTP hash now0 ttlMin code newId email purpose db).2).2 =
      (⟨false, "Invalid or expired OTP"⟩,
        (verifyOTP hash now1 email code purpose
          (createOTP hash now0 ttlMin code newId email purpose db).2).2) := by
  have hstate : (createOTP hash now0 ttlMin code newId email purpose db).2 =
      freshOTP hash now0 ttlMin code newId email purpose ::
        db.filter (fun r => !(pairMatch email purpose r)) := rfl
  have hv := verifyOTP_cons_correct hash now1 email code purpose
    (freshOTP hash now0 ttlMin code newId email purpose)
    (db.filter (fun r => !(pairMatch email purpose r)))
    rfl rfl rfl h1 (by simp [freshOTP]) (beq_self_eq_true (hash code))
  rw [hstate, hv]
  refine ⟨rfl, ?_, ?_⟩
  · intro r hr hpm
    rcases List.mem_cons.mp hr with rfl | hr'
    · rfl
    · rcases mem_overwrite hr' with rfl | hk
      · rfl
      · rw [pairMatch_false_of_mem_kept hk] at hpm
        exact Bool.noConfusion hpm
  · apply verifyOTP_of_no_active
    intro r hr
    rcases List.mem_cons.mp hr with rfl | hr'
    · simp [isActiveFor]
    · rcases mem_overwrite hr' with rfl | hk
      · simp [isActiveFor]
      · simp [isActiveFor, pairMatch_false_of_mem_kept hk]

/-- Witness for C1: from an empty store, a concrete issuance is verified
once, then the immediate retry with the same correct code fails with the
not-found-or-expired message. -/
theorem verifyOTP_single_use_witness :
    (verifyOTP id 5000 "a@x.com" "123456" "signup"
        (createOTP id 0 10 "123456" 1 "a@x.com" "signup" []).2).1 =
      ⟨true, "OTP verified successfully"⟩ ∧
    (∀ r ∈ (verifyOTP id 5000 "a@x.com" "123456" "signup"
        (createOTP id 0 10 "123456" 1 "a@x.com" "signup" []).2).2,
      pairMatch "a@x.com" "signup" r = true → r.isUsed = true) ∧
    verifyOTP id 6000 "a@x.com" "123456" "signup"
        (verifyOTP id 5000 "a@x.com" "123456" "signup"
          (createOTP id 0 10 "123456" 1 "a@x.com" "signup" []).2).2 =
      (⟨false, "Invalid or expired OTP"⟩,
        (verifyOTP id 5000 "a@x.com" "123456" "signup"
          (createOTP id 0 10 "123456" 1 "a@x.com" "signup" []).2).2) :=
  verifyOTP_single_use id [] 0 10 "123456" 1 "a@x.com" "signup" 5000 6000
    "123456" (by norm_num)

/-- C9: the email address is normalized (lowercased, trimmed): issuing under
one casing and verifying under any other casing of the same address resolves
to the same stored record, so the correct code verifies successfully
regardless of the casing used at issue or verify time. -/
theorem verifyOTP_case_insensitive (hash : String → String) (db : List OTPRecord)
    (now0 ttlMin : Nat) (code : String) (newId : Nat) (e1 e2 purpose : String)
    (now1 : Nat)
    (hnorm : normEmail e1 = normEmail e2)
    (h1 : now1 < now0 + ttlMin * 60 * 1000) :
    (verifyOTP hash now1 e2 code purpose
        (createOTP hash now0 ttlMin code newId e1 purpose db).2).1 =
      ⟨true, "OTP verified successfully"⟩ := by
  have hstate : (createOTP hash now0 ttlMin code newId e1 purpose db).2 =
      freshOTP hash now0 ttlMin code newId e1 purpose ::
        db.filter (fun r => !(pairMatch e1 purpose r)) := rfl
  have hv := verifyOTP_cons_correct hash now1 e2 code purpose
    (freshOTP hash now0 ttlMin code newId e1 purpose)
    (db.filter (fun r => !(pairMatch e1 purpose r)))
    hnorm rfl rfl h1 (by simp [freshOTP]) (beq_self_eq_true (hash code))
  rw [hstate, hv]

/-- Witness for C9: issue under "A@X.com", verify under "a@x.COM". -/
theorem verifyOTP_case_insensitive_witness :
    (verifyOTP id 5000 "a@x.COM" "123456" "signup"
        (createOTP id 0 10 "123456" 1 "A@X.com" "signup" []).2).1 =
      ⟨true, "OTP verified successfully"⟩ :=
  verifyOTP_case_insensitive id [] 0 10 "123456" 1 "A@X.com" "a@x.COM"
    "signup" 5000 (by decide) (by norm_num)

/-- C7: when `verifyOTP` finds an eligible record but the submitted code does
not match, it returns the invalid-code failure, the store changes only by
incrementing that record's `attempts` counter (`isUsed` and every other field
unchanged; records with other ids untouched), and a later call with the
correct code — before expiry and below the attempt cap — still succeeds. -/
theorem verifyOTP_invalid_code_keeps_record (hash : String → String) (now : Nat)
    (email c purpose : String) (db : List OTPRecord) (otp : OTPRecord)
    (hnodup : (db.map OTPRecord.id).Nodup)
    (hfind : findOneActive now email purpose db = some otp)
    (hatt : otp.attempts < 5)
    (hc : (otp.code == hash c) = false) :
    verifyOTP hash now email c purpose db =
      (⟨false, "Invalid OTP code"⟩,
        saveRecord db { otp with attempts := otp.attempts + 1 }) ∧
    (∀ r ∈ db, r.id ≠ otp.id → r ∈ (verifyOTP hash now email c purpose db).2) ∧
    (∀ now' c', now ≤ now' → now' < otp.expiresAt → otp.attempts + 1 < 5 →
      (otp.code == hash c') = true →
      (verifyOTP hash now' email c' purpose
        (verifyOTP hash now email c purpose db).2).1 =
      ⟨true, "OTP verified successfully"⟩) := by
  have hstep := verifyOTP_found_wrong hash now email c purpose db otp hfind hatt hc
  have hprops := of_isActiveFor (List.find?_some hfind)
  refine ⟨hstep, ?_, ?_⟩
  · intro r hr hne
    rw [hstep]
    show r ∈ saveRecord db { otp with attempts := otp.attempts + 1 }
    exact List.mem_map.mpr ⟨r, hr, by simp [hne]⟩
  · intro now' c' hlater hexp' hatt' hc'
    have hact1 : isActiveFor now' email purpose
        { otp with attempts := otp.attempts + 1 } = true :=
      isActiveFor_true hprops.1 hprops.2.1 hprops.2.2.1 hexp'
    have hfind1 : findOneActive now' email purpose
        (verifyOTP hash now email c purpose db).2 =
        some { otp with attempts := otp.attempts + 1 } := by
      rw [hstep]
      exact @find?_overwrite_later now now' email purpose otp
        { otp with attempts := otp.attempts + 1 } rfl hact1 hlater db hnodup hfind
    rw [verifyOTP_found_right hash now' email c' purpose _ _ hfind1 hatt' hc']

/-- Witness for C7: a wrong code against a concrete eligible record fails
with the invalid-code message, and the correct code still succeeds
afterwards. -/
theorem verifyOTP_invalid_code_keeps_record_witness :
    (verifyOTP id 10 "a@x.com" "000000" "signup"
        [{ id := 1, email := "a@x.com", code := "123456", purpose := "signup",
           expiresAt := 100, attempts := 0, isUsed := false, createdAt := 0 }]).1 =
      ⟨false, "Invalid OTP code"⟩ ∧
    (verifyOTP id 20 "a@x.com" "123456" "signup"
        (verifyOTP id 10 "a@x.com" "000000" "signup"
          [{ id := 1, email := "a@x.com", code := "123456", purpose := "signup",
             expiresAt := 100, attempts := 0, isUsed := false, createdAt := 0 }]).2).1 =
      ⟨true, "OTP verified successfully"⟩ := by
  have h := verifyOTP_invalid_code_keeps_record id 10 "a@x.com" "000000" "signup"
    [{ id := 1, email := "a@x.com", code := "123456", purpose := "signup",
       expiresAt := 100, attempts := 0, isUsed := false, createdAt := 0 }]
    { id := 1, email := "a@x.com", code := "123456", purpose := "signup",
      expiresAt := 100, attempts := 0, isUsed := false, createdAt := 0 }
    (by decide) (by decide) (by decide) (by decide)
  exact ⟨by rw [h.1], h.2.2 20 "123456" (by norm_num) (by norm_num) (by norm_num)
    (by decide)⟩

/-- C10: on an eligible record whose attempt counter has reached the cap,
`verifyOTP` returns the too-many-attempts failure for every submitted code
(never comparing it) and leaves the store entirely unchanged; moreover no
operation ever pushes an attempts field beyond 5. -/
theorem verifyOTP_cap_reached (hash : String → String) (now : Nat)
    (email purpose : String) (db : List OTPRecord) (otp : OTPRecord)
    (hfind : findOneActive now email purpose db = some otp)
    (hcap : 5 ≤ otp.attempts) :
    (∀ c, verifyOTP hash now email c purpose db =
      (⟨false, "Too many attempts. Please request a new OTP."⟩, db)) ∧
    (∀ (hash' : String → String) (now' : Nat) (e' c' p' : String)
        (d : List OTPRecord), (∀ r ∈ d, r.attempts ≤ 5) →
      ∀ r ∈ (verifyOTP hash' now' e' c' p' d).2, r.attempts ≤ 5) ∧
    (∀ (hash' : String → String) (now' ttl' : Nat) (code' : String) (id' : Nat)
        (e' p' : String) (d : List OTPRecord), (∀ r ∈ d, r.attempts ≤ 5) →
      ∀ r ∈ (createOTP hash' now' ttl' code' id' e' p' d).2, r.attempts ≤ 5) ∧
    (∀ (hash' : String → String) (now' ttl' : Nat) (code' : String) (id' : Nat)
        (e' p' : String) (d : List OTPRecord)
        (out : (String × Nat × String) × List OTPRecord),
      resendOTP hash' now' ttl' code' id' e' p' d = .ok out →
      (∀ r ∈ d, r.attempts ≤ 5) → ∀ r ∈ out.2, r.attempts ≤ 5) := by
  have hcreate : ∀ (hash' : String → String) (now' ttl' : Nat) (code' : String)
      (id' : Nat) (e' p' : String) (d : List OTPRecord),
      (∀ r ∈ d, r.attempts ≤ 5) →
      ∀ r ∈ (createOTP hash' now' ttl' code' id' e' p' d).2, r.attempts ≤ 5 := by
    intro hash' now' ttl' code' id' e' p' d hall r hr
    rw [createOTP_eq] at hr
    rcases List.mem_cons.mp hr with rfl | hr'
    · show (0 : Nat) ≤ 5
      omega
    · exact hall r (List.mem_filter.mp hr').1
  refine ⟨fun c => verifyOTP_found_capped hash now email c purpose db otp hfind hcap,
    fun hash' now' e' c' p' d hall => verifyOTP_attempts_le hash' now' e' c' p' d hall,
    hcreate, ?_⟩
  intro hash' now' ttl' code' id' e' p' d out hout hall
  unfold resendOTP at hout
  cases hf : d.find? (isRecent now' e' p') with
  | some x =>
    rw [hf] at hout
    exact absurd hout (by simp)
  | none =>
    rw [hf] at hout
    have hok : createOTP hash' now' ttl' code' id' e' p' d = out := by
      simpa using hout
    rw [← hok]
    exact hcreate hash' now' ttl' code' id' e' p' d hall

/-- Witness for C10: a concrete record with 5 attempts rejects its own
correct code with the too-many-attempts message, store unchanged. -/
theorem verifyOTP_cap_reached_witness :
    verifyOTP id 10 "a@x.com" "123456" "signup"
        [{ id := 1, email := "a@x.com", code := "123456", purpose := "signup",
           expiresAt := 100, attempts := 5, isUsed := false, createdAt := 0 }] =
      (⟨false, "Too many attempts. Please request a new OTP."⟩,
        [{ id := 1, email := "a@x.com", code := "123456", purpose := "signup",
           expiresAt := 100, attempts := 5, isUsed := false, createdAt := 0 }]) :=
  (verifyOTP_cap_reached id 10 "a@x.com" "signup"
    [{ id := 1, email := "a@x.com", code := "123456", purpose := "signup",
       expiresAt := 100, attempts := 5, isUsed := false, createdAt := 0 }]
    { id := 1, email := "a@x.com", code := "123456", purpose := "signup",
      expiresAt := 100, attempts := 5, isUsed := false, createdAt := 0 }
    (by decide) (by norm_num)).1 "123456"

/-- The records `createOTP` leaves for the issued pair: exactly the fresh one. -/
theorem createOTP_filter_pair (hash : String → String) (now ttlMin : Nat)
    (code : String) (newId : Nat) (email purpose : String) (db : List OTPRecord) :
    (createOTP hash now ttlMin code newId email purpose db).2.filter
        (pairMatch email purpose) =
      [freshOTP hash now ttlMin code newId email purpose] := by
  rw [createOTP_eq]
  rw [List.filter_cons_of_pos (by simp [pairMatch, freshOTP])]
  rw [List.filter_eq_nil_iff.mpr
    (fun r hr => by simp [pairMatch_false_of_mem_kept hr])]

/-- C2: while a record is eligible, every `verifyOTP` call with a
non-matching code increments its `attempts` counter by exactly one (and
nothing else); after five wrong submissions against a freshly issued record,
the sixth submission returns the too-many-attempts failure even though the
submitted code is the correct one. -/
theorem verifyOTP_wrong_code_attempts (hash : String → String)
    (hinj : Function.Injective hash)
    (db : List OTPRecord) (now0 ttlMin : Nat) (code : String) (newId : Nat)
    (email purpose : String) (now1 : Nat) (cs : List String)
    (hfreshid : ∀ r ∈ db, r.id ≠ newId)
    (h1 : now1 < now0 + ttlMin * 60 * 1000)
    (hcs : ∀ c ∈ cs, c ≠ code) (hlen : cs.length = 5) :
    (∀ (d : List OTPRecord) (o : OTPRecord) (c : String),
        findOneActive now1 email purpose d = some o → o.attempts < 5 →
        (o.code == hash c) = false →
        verifyOTP hash now1 email c purpose d =
          (⟨false, "Invalid OTP code"⟩,
            saveRecord d { o with attempts := o.attempts + 1 })) ∧
    (verifyOTP hash now1 email code purpose
        (verifyFold hash now1 email purpose cs
          (createOTP hash now0 ttlMin code newId email purpose db).2)).1 =
      ⟨false, "Too many attempts. Please request a new OTP."⟩ := by
  constructor
  · intro d o c hfind hatt hcmp
    exact verifyOTP_found_wrong hash now1 email c purpose d o hfind hatt hcmp
  · have hstate : (createOTP hash now0 ttlMin code newId email purpose db).2 =
        freshOTP hash now0 ttlMin code newId email purpose ::
          db.filter (fun r => !(pairMatch email purpose r)) := rfl
    have hkid : ∀ s ∈ db.filter (fun r => !(pairMatch email purpose r)),
        s.id ≠ (freshOTP hash now0 ttlMin code newId email purpose).id :=
      fun s hs => hfreshid s (List.mem_filter.mp hs).1
    have hwrong : ∀ c ∈ cs,
        ((freshOTP hash now0 ttlMin code newId email purpose).code == hash c) = false := by
      intro c hcmem
      refine beq_eq_false_iff_ne.mpr ?_
      intro he
      exact hcs c hcmem (hinj he).symm
    have hfold := verifyFold_wrong hash now1 email purpose
      (db.filter (fun r => !(pairMatch email purpose r))) cs
      (freshOTP hash now0 ttlMin code newId email purpose)
      hkid rfl rfl rfl h1 hwrong (by simp [freshOTP, hlen])
    rw [hstate, hfold, hlen]
    have hcap := verifyOTP_cons_capped hash now1 email code purpose
      { freshOTP hash now0 ttlMin code newId email purpose with
        attempts := (freshOTP hash now0 ttlMin code newId email purpose).attempts + 5 }
      (db.filter (fun r => !(pairMatch email purpose r)))
      rfl rfl rfl h1 (by simp [freshOTP])
    rw [hcap]

/-- Witness for C2: five wrong codes then the correct one against a fresh
issuance ends in the too-many-attempts failure. -/
theorem verifyOTP_wrong_code_attempts_witness :
    (verifyOTP id 999 "a@x.com" "123456" "signup"
        (verifyFold id 999 "a@x.com" "signup"
          ["000000", "000001", "000002", "000003", "000004"]
          (createOTP id 0 10 "123456" 1 "a@x.com" "signup" []).2)).1 =
      ⟨false, "Too many attempts. Please request a new OTP."⟩ :=
  (verifyOTP_wrong_code_attempts id (fun _ _ h => h) [] 0 10 "123456" 1
    "a@x.com" "signup" 999 ["000000", "000001", "000002", "000003", "000004"]
    (by simp) (by norm_num) (by decide) rfl).2

/-- C4: the persisted record stores only the one-way hash of the code while
the plaintext is returned to the caller for delivery, and verification
compares the submitted code against the stored field under the same hash. -/
theorem createOTP_persists_hash_only (hash : String → String) (now ttlMin : Nat)
    (code : String) (newId : Nat) (email purpose : String) (db : List OTPRecord)
    (hnf : hash code ≠ code) :
    ((createOTP hash now ttlMin code newId email purpose db).1.1 = code) ∧
    ((createOTP hash now ttlMin code newId email purpose db).2.filter
        (pairMatch email purpose) =
      [freshOTP hash now ttlMin code newId email purpose]) ∧
    ((freshOTP hash now ttlMin code newId email purpose).code = hash code) ∧
    ((freshOTP hash now ttlMin code newId email purpose).code ≠ code) ∧
    (∀ (now' : Nat) (c : String) (d : List OTPRecord) (o : OTPRecord),
      findOneActive now' email purpose d = some o → o.attempts < 5 →
      (verifyOTP hash now' email c purpose d).1.valid = (o.code == hash c)) := by
  refine ⟨rfl, createOTP_filter_pair hash now ttlMin code newId email purpose db,
    rfl, hnf, ?_⟩
  intro now' c d o hfind hatt
  cases hcmp : o.code == hash c with
  | false => rw [verifyOTP_found_wrong hash now' email c purpose d o hfind hatt hcmp]
  | true => rw [verifyOTP_found_right hash now' email c purpose d o hfind hatt hcmp]

/-- Witness for C4: with a concrete non-identity hash, the plaintext is
returned while the stored field differs from it. -/
theorem createOTP_persists_hash_only_witness :
    ((createOTP (fun s => "h" ++ s) 0 10 "123456" 1 "a@x.com" "signup" []).1.1 =
      "123456") ∧
    (freshOTP (fun s => "h" ++ s) 0 10 "123456" 1 "a@x.com" "signup").code ≠
      "123456" :=
  ⟨(createOTP_persists_hash_only (fun s => "h" ++ s) 0 10 "123456" 1 "a@x.com"
      "signup" [] (by decide)).1,
    (createOTP_persists_hash_only (fun s => "h" ++ s) 0 10 "123456" 1 "a@x.com"
      "signup" [] (by decide)).2.2.2.1⟩

/-- C5: `resendOTP` fails with the rate-limit error whenever any record for
the pair was created within the last 60 seconds — whatever its used or
expired state — and otherwise succeeds, deleting the prior records for the
pair and persisting a fresh one. -/
theorem resendOTP_cooldown (hash : String → String) (now ttlMin : Nat)
    (code : String) (newId : Nat) (email purpose : String) (db : List OTPRecord) :
    ((∃ r ∈ db, pairMatch email purpose r = true ∧ now ≤ r.createdAt + 60000) →
      resendOTP hash now ttlMin code newId email purpose db =
        .error
          "Failed to resend OTP: Please wait at least 1 minute before requesting a new OTP") ∧
    ((∀ r ∈ db, pairMatch email purpose r = true → r.createdAt + 60000 < now) →
      resendOTP hash now ttlMin code newId email purpose db =
        .ok ((code, now + ttlMin * 60 * 1000, purpose),
          freshOTP hash now ttlMin code newId email purpose ::
            db.filter (fun r => !(pairMatch email purpose r)))) := by
  constructor
  · rintro ⟨r, hr, hpm, hrec⟩
    have hsome : (db.find? (isRecent now email purpose)).isSome := by
      rw [List.find?_isSome]
      exact ⟨r, hr, by simp [isRecent, hpm, hrec]⟩
    unfold resendOTP
    cases hf : db.find? (isRecent now email purpose) with
    | none =>
      rw [hf] at hsome
      exact absurd hsome (by simp)
    | some x => rfl
  · intro h
    have hnone : db.find? (isRecent now email purpose) = none := by
      rw [List.find?_eq_none]
      intro r hr
      cases hpm : pairMatch email purpose r with
      | false => simp [isRecent, hpm]
      | true =>
        have hlt := h r hr hpm
        simp [isRecent, hpm, Nat.not_le.mpr hlt]
    unfold resendOTP
    rw [hnone]
    rfl

/-- Witness for C5: a record created 30 seconds ago blocks the resend; the
same record 70 seconds later lets it through, superseding the record. -/
theorem resendOTP_cooldown_witness :
    resendOTP id 30000 10 "111111" 2 "a@x.com" "signup"
        [{ id := 1, email := "a@x.com", code := "123456", purpose := "signup",
           expiresAt := 5000, attempts := 0, isUsed := true, createdAt := 0 }] =
      .error
        "Failed to resend OTP: Please wait at least 1 minute before requesting a new OTP" ∧
    resendOTP id 70000 10 "111111" 2 "a@x.com" "signup"
        [{ id := 1, email := "a@x.com", code := "123456", purpose := "signup",
           expiresAt := 5000, attempts := 0, isUsed := true, createdAt := 0 }] =
      .ok (("111111", 70000 + 10 * 60 * 1000, "signup"),
        freshOTP id 70000 10 "111111" 2 "a@x.com" "signup" ::
          List.filter (fun r => !(pairMatch "a@x.com" "signup" r))
            [{ id := 1, email := "a@x.com", code := "123456", purpose := "signup",
               expiresAt := 5000, attempts := 0, isUsed := true, createdAt := 0 }]) :=
  ⟨(resendOTP_cooldown id 30000 10 "111111" 2 "a@x.com" "signup" _).1
      ⟨{ id := 1, email := "a@x.com", code := "123456", purpose := "signup",
         expiresAt := 5000, attempts := 0, isUsed := true, createdAt := 0 },
        by simp, by decide, by norm_num⟩,
    (resendOTP_cooldown id 70000 10 "111111" 2 "a@x.com" "signup" _).2
      (by decide)⟩

end RGramOTP
